import Mathlib

/-!
Verification of the solar-system motion model: the orbit evaluator
(per-frame position update in the Planet component), the retrograde
curve sampler (RetrogradeCurve.getPoint), the frame toggle handler,
and the geocentric Sun configuration.  Machine floating point is
modelled by the real numbers; per-frame mutation of the group position
is modelled by passing the previous position in and returning the new
one.
-/

namespace OrbMotion

/-- A 3D scene vector (THREE.Vector3 / group position), components in ℝ. -/
@[ext]
structure Vec3 where
  x : ℝ
  y : ℝ
  z : ℝ

/-- Euclidean length of a scene vector, i.e. distance from the frame origin. -/
noncomputable def Vec3.norm (v : Vec3) : ℝ :=
  Real.sqrt (v.x ^ 2 + v.y ^ 2 + v.z ^ 2)

/-- Euclidean distance between two scene points. -/
noncomputable def Vec3.distTo (a b : Vec3) : ℝ :=
  Vec3.norm ⟨a.x - b.x, a.y - b.y, a.z - b.z⟩

/-- The retrograde (epicyclic) ring curve parameters; the source
constructs it as RetrogradeCurve(radius, 0.1, 2). -/
structure RetrogradeCurve where
  radius : ℝ
  amplitudeFactor : ℝ
  speedMultiplier : ℝ

/-- RetrogradeCurve.getPoint from the source: angle = t·π·2, deferent
(cos·r, ·, sin·r), epicycle radius = radius·amplitudeFactor, epicycle
angle = -speedMultiplier·angle, result = deferent + epicycle with y = 0. -/
noncomputable def RetrogradeCurve.getPoint (c : RetrogradeCurve) (t : ℝ) : Vec3 :=
  let angle := t * Real.pi * 2
  let deferentX := Real.cos angle * c.radius
  let deferentZ := Real.sin angle * c.radius
  let epicycleRadius := c.radius * c.amplitudeFactor
  let epicycleAngle := -c.speedMultiplier * angle
  let epiX := Real.cos epicycleAngle * epicycleRadius
  let epiZ := Real.sin epicycleAngle * epicycleRadius
  ⟨deferentX + epiX, 0, deferentZ + epiZ⟩

/-- The per-frame orbit evaluator of the Planet component (its useFrame
callback): computes newAngle = angle + orbitSpeed; if orbitRadius > 0 it
writes x and z of the group position (plain circle when the frame is
heliocentric or the body is Earth or Moon, otherwise deferent plus an
epicycle of radius orbitRadius·0.05 at angle -newAngle·1.5); otherwise it
resets the position to the configured fixed position.  The y component is
never written in the orbiting branches, so the previous y is carried over.
Returns (newAngle, new group position). -/
noncomputable def Planet.useFrame (angle orbitSpeed orbitRadius : ℝ)
    (isHeliocentric : Bool) (name : String) (position prev : Vec3) : ℝ × Vec3 :=
  let newAngle := angle + orbitSpeed
  if orbitRadius > 0 then
    if isHeliocentric = true ∨ name = "Earth" ∨ name = "Moon" then
      (newAngle, ⟨Real.cos newAngle * orbitRadius, prev.y, Real.sin newAngle * orbitRadius⟩)
    else
      let deferentX := Real.cos newAngle * orbitRadius
      let deferentZ := Real.sin newAngle * orbitRadius
      let epicycleRadius := orbitRadius * 0.05
      let epicycleAngle := -newAngle * 1.5
      let epiX := Real.cos epicycleAngle * epicycleRadius
      let epiZ := Real.sin epicycleAngle * epicycleRadius
      (newAngle, ⟨deferentX + epiX, prev.y, deferentZ + epiZ⟩)
  else
    (newAngle, position)

/-- A runtime value of the isHeliocentric prop.  TypeScript types are
erased at runtime, so the prop may hold any JavaScript value; the source
branches on it by truthiness (isHeliocentric || name === "Earth" || ...).
helio is the value true, geo the value false, and unknownVal models any
other runtime value together with its truthiness. -/
inductive JSFrameValue
  | helio
  | geo
  | unknownVal (truthy : Bool)

/-- Truthiness of a runtime frame value under JavaScript coercion. -/
def JSFrameValue.truthy : JSFrameValue → Bool
  | .helio => true
  | .geo => false
  | .unknownVal b => b

/-- Whether an Except result carries a value rather than an error. -/
def exceptIsOk : Except String (ℝ × Vec3) → Bool
  | .ok _ => true
  | .error _ => false

/-- The orbit evaluator as seen at runtime: the frame prop may hold any
value, the body contains no validation and no throw statement, and the
two-way branch on truthiness covers every value, so a result is always
returned (never an error). -/
noncomputable def Planet.useFrameRuntime (angle orbitSpeed orbitRadius : ℝ)
    (frame : JSFrameValue) (name : String) (position prev : Vec3) :
    Except String (ℝ × Vec3) :=
  Except.ok (Planet.useFrame angle orbitSpeed orbitRadius frame.truthy name position prev)

/-- Hover-panel payload; opaque to the motion model. -/
structure InfoData where
  title : String
  summary : String
  opengraphLink : String
  opengraphImage : String

/-- The mutable state of the SolarSystem component together with the
per-Planet angle state (each Planet owns its own angle via useState;
keyed here by body name). -/
structure SolarSystemState where
  isHeliocentric : Bool
  animTrigger : Bool
  selectedObjectInfo : Option InfoData
  planetAngles : String → ℝ

/-- The toggle button onClick handler: setIsHeliocentric(!isHeliocentric),
flip animTrigger, clear the selected info panel.  The per-Planet angle
state is owned by the Planet components and is not touched. -/
def toggleClick (s : SolarSystemState) : SolarSystemState :=
  { s with
    isHeliocentric := !s.isHeliocentric
    animTrigger := !s.animTrigger
    selectedObjectInfo := none }

/-- Geocentric Sun configuration: orbitRadius={30}. -/
noncomputable def sunGeocentricOrbitRadius : ℝ := 30

/-- Geocentric Sun configuration: orbitSpeed={0.02}. -/
noncomputable def sunGeocentricOrbitSpeed : ℝ := 0.02

/-- Sun configuration: name="Sun". -/
def sunName : String := "Sun"

/-- Sun configuration: position={[0, 0, 0]}. -/
noncomputable def sunFixedPosition : Vec3 := ⟨0, 0, 0⟩

/-! Helper lemmas. -/

/-- Squared length of a deferent-plus-epicycle point: with deferent angle a,
epicycle multiplier m and amplitude fraction f, the squared distance from
the origin is r²(1 + f² + 2f·cos((1+m)a)). -/
lemma normSq_deferent_epicycle (r f m a : ℝ) :
    (Real.cos a * r + Real.cos (-(m * a)) * (r * f)) ^ 2
      + (Real.sin a * r + Real.sin (-(m * a)) * (r * f)) ^ 2
    = r ^ 2 * (1 + f ^ 2 + 2 * f * Real.cos ((1 + m) * a)) := by
  have h1 := Real.sin_sq_add_cos_sq a
  have h2 := Real.sin_sq_add_cos_sq (m * a)
  have hadd : Real.cos ((1 + m) * a)
      = Real.cos a * Real.cos (m * a) - Real.sin a * Real.sin (m * a) := by
    rw [show (1 + m) * a = a + m * a by ring, Real.cos_add]
  rw [Real.cos_neg, Real.sin_neg, hadd]
  linear_combination r ^ 2 * h1 + r ^ 2 * f ^ 2 * h2

/-- Bounds for the epicyclic squared length from -1 ≤ cos ≤ 1. -/
lemma normSq_deferent_epicycle_bounds (r f c : ℝ) (_hr : 0 ≤ r) (hf0 : 0 ≤ f)
    (hc1 : -1 ≤ c) (hc2 : c ≤ 1) :
    (r * (1 - f)) ^ 2 ≤ r ^ 2 * (1 + f ^ 2 + 2 * f * c)
      ∧ r ^ 2 * (1 + f ^ 2 + 2 * f * c) ≤ (r * (1 + f)) ^ 2 := by
  constructor
  · nlinarith [mul_nonneg (mul_nonneg (mul_self_nonneg r) hf0) (by linarith : (0:ℝ) ≤ 1 + c)]
  · nlinarith [mul_nonneg (mul_nonneg (mul_self_nonneg r) hf0) (by linarith : (0:ℝ) ≤ 1 - c)]

/-- Square-root bracketing: if lo² ≤ S ≤ hi² with lo, hi nonnegative then
lo ≤ √S ≤ hi. -/
lemma sqrt_bracket {lo hi S : ℝ} (hlo : 0 ≤ lo) (hhi : 0 ≤ hi)
    (h1 : lo ^ 2 ≤ S) (h2 : S ≤ hi ^ 2) :
    lo ≤ Real.sqrt S ∧ Real.sqrt S ≤ hi := by
  constructor
  · calc lo = Real.sqrt (lo ^ 2) := (Real.sqrt_sq hlo).symm
      _ ≤ Real.sqrt S := Real.sqrt_le_sqrt h1
  · calc Real.sqrt S ≤ Real.sqrt (hi ^ 2) := Real.sqrt_le_sqrt h2
      _ = hi := Real.sqrt_sq hhi

/-- For S ≥ 0 and r ≥ 0, √S = r exactly when S = r². -/
lemma sqrt_eq_iff_sq {S r : ℝ} (hS : 0 ≤ S) (hr : 0 ≤ r) :
    Real.sqrt S = r ↔ S = r ^ 2 := by
  constructor
  · intro h
    calc S = Real.sqrt S ^ 2 := (Real.sq_sqrt hS).symm
      _ = r ^ 2 := by rw [h]
  · intro h
    rw [h, Real.sqrt_sq hr]

/-- The epicyclic squared length equals r² exactly when the phase term
cos((1+m)a) equals -f/2 (for r > 0, f > 0). -/
lemma normSq_eq_iff_phase {r f c : ℝ} (hr : 0 < r) (hf : 0 < f) :
    r ^ 2 * (1 + f ^ 2 + 2 * f * c) = r ^ 2 ↔ c = -(f / 2) := by
  constructor
  · intro h
    have hr2 : r ^ 2 ≠ 0 := pow_ne_zero 2 hr.ne'
    have h1 : 1 + f ^ 2 + 2 * f * c = 1 := by
      have := mul_left_cancel₀ hr2 (h.trans (mul_one (r ^ 2)).symm)
      exact this
    have h2 : f * (f + 2 * c) = 0 := by ring_nf; nlinarith [h1]
    rcases mul_eq_zero.mp h2 with h3 | h3
    · exact absurd h3 hf.ne'
    · linarith
  · intro h
    rw [h]; ring

/-- Unfolding lemma for the norm of a literal vector. -/
lemma Vec3.norm_mk (a b c : ℝ) :
    Vec3.norm ⟨a, b, c⟩ = Real.sqrt (a ^ 2 + b ^ 2 + c ^ 2) := rfl

/-- Evaluation lemma for the curve sampler on literal parameters. -/
lemma getPoint_eval (s f m t : ℝ) :
    RetrogradeCurve.getPoint ⟨s, f, m⟩ t
      = ⟨Real.cos (t * Real.pi * 2) * s
           + Real.cos (-m * (t * Real.pi * 2)) * (s * f), 0,
         Real.sin (t * Real.pi * 2) * s
           + Real.sin (-m * (t * Real.pi * 2)) * (s * f)⟩ := rfl

/-- Norm of a deferent-plus-epicycle point in closed form. -/
lemma epi_norm_eval (r f m a : ℝ) :
    Vec3.norm ⟨Real.cos a * r + Real.cos (-(m * a)) * (r * f), 0,
               Real.sin a * r + Real.sin (-(m * a)) * (r * f)⟩
      = Real.sqrt (r ^ 2 * (1 + f ^ 2 + 2 * f * Real.cos ((1 + m) * a))) := by
  rw [Vec3.norm_mk]
  have h := normSq_deferent_epicycle r f m a
  congr 1
  linear_combination h

/-- Distance envelope of a deferent-plus-epicycle point. -/
lemma epi_norm_bounds (r f m a : ℝ) (hr : 0 ≤ r) (hf0 : 0 ≤ f) (hf1 : f ≤ 1) :
    r * (1 - f)
      ≤ Vec3.norm ⟨Real.cos a * r + Real.cos (-(m * a)) * (r * f), 0,
                   Real.sin a * r + Real.sin (-(m * a)) * (r * f)⟩
    ∧ Vec3.norm ⟨Real.cos a * r + Real.cos (-(m * a)) * (r * f), 0,
                 Real.sin a * r + Real.sin (-(m * a)) * (r * f)⟩
      ≤ r * (1 + f) := by
  rw [epi_norm_eval]
  have hc1 := Real.neg_one_le_cos ((1 + m) * a)
  have hc2 := Real.cos_le_one ((1 + m) * a)
  obtain ⟨hb1, hb2⟩ :=
    normSq_deferent_epicycle_bounds r f (Real.cos ((1 + m) * a)) hr hf0 hc1 hc2
  exact sqrt_bracket (mul_nonneg hr (by linarith)) (mul_nonneg hr (by linarith)) hb1 hb2

/-- A deferent-plus-epicycle point lies at distance exactly r from the
origin precisely at the phase alignments cos((1+m)a) = -f/2. -/
lemma epi_norm_eq_iff (r f m a : ℝ) (hr : 0 < r) (hf0 : 0 < f) (_hf1 : f ≤ 1) :
    Vec3.norm ⟨Real.cos a * r + Real.cos (-(m * a)) * (r * f), 0,
               Real.sin a * r + Real.sin (-(m * a)) * (r * f)⟩ = r
      ↔ Real.cos ((1 + m) * a) = -(f / 2) := by
  rw [epi_norm_eval]
  have hc1 := Real.neg_one_le_cos ((1 + m) * a)
  have hS : 0 ≤ r ^ 2 * (1 + f ^ 2 + 2 * f * Real.cos ((1 + m) * a)) := by
    nlinarith [sq_nonneg (1 - f), sq_nonneg r,
      mul_nonneg hf0.le (by linarith : (0:ℝ) ≤ 1 + Real.cos ((1 + m) * a))]
  rw [sqrt_eq_iff_sq hS hr.le]
  exact normSq_eq_iff_phase hr hf0

/-- Evaluation of the orbit evaluator on the heliocentric-or-exempt branch. -/
lemma useFrame_heliocentric_eval (angle orbitSpeed orbitRadius : ℝ)
    (name : String) (position prev : Vec3) (hr : 0 < orbitRadius) :
    Planet.useFrame angle orbitSpeed orbitRadius true name position prev
      = (angle + orbitSpeed,
         ⟨Real.cos (angle + orbitSpeed) * orbitRadius, prev.y,
          Real.sin (angle + orbitSpeed) * orbitRadius⟩) := by
  simp only [Planet.useFrame]
  rw [if_pos hr, if_pos (Or.inl trivial)]

/-- Evaluation of the orbit evaluator on the geocentric non-exempt branch:
epicycle radius orbitRadius·0.05, epicycle angle -newAngle·1.5. -/
lemma useFrame_geocentric_eval (angle orbitSpeed orbitRadius : ℝ)
    (name : String) (position prev : Vec3) (hr : 0 < orbitRadius)
    (h1 : name ≠ "Earth") (h2 : name ≠ "Moon") :
    Planet.useFrame angle orbitSpeed orbitRadius false name position prev
      = (angle + orbitSpeed,
         ⟨Real.cos (angle + orbitSpeed) * orbitRadius
            + Real.cos (-(angle + orbitSpeed) * 1.5) * (orbitRadius * 0.05),
          prev.y,
          Real.sin (angle + orbitSpeed) * orbitRadius
            + Real.sin (-(angle + orbitSpeed) * 1.5) * (orbitRadius * 0.05)⟩) := by
  have hcond : ¬ ((false = true) ∨ name = "Earth" ∨ name = "Moon") := by
    simp [h1, h2]
  simp only [Planet.useFrame]
  rw [if_pos hr, if_neg hcond]

/-- Two-sided bound on cos 0.029 through the half-angle identity and the
cubic bounds on sin 0.0145. -/
lemma cos_029_bounds : 0.99957 < Real.cos 0.029 ∧ Real.cos 0.029 < 0.99958 := by
  have hs1 : Real.sin 0.0145 < 0.0145 := Real.sin_lt (by norm_num)
  have hs2 : (0.0145:ℝ) - 0.0145 ^ 3 / 4 < Real.sin 0.0145 :=
    Real.sin_gt_sub_cube (by norm_num) (by norm_num)
  have hpos : 0 < Real.sin 0.0145 := by nlinarith [hs2]
  have hcos : Real.cos 0.029 = 1 - 2 * Real.sin 0.0145 ^ 2 := by
    rw [show (0.029:ℝ) = 2 * 0.0145 by norm_num, Real.cos_two_mul, Real.cos_sq']
    ring
  constructor
  · have hub : Real.sin 0.0145 ^ 2 < (0.0145:ℝ) ^ 2 := by nlinarith [hs1, hpos]
    rw [hcos]
    nlinarith [hub]
  · have hlb : ((0.0145:ℝ) - 0.0145 ^ 3 / 4) ^ 2 < Real.sin 0.0145 ^ 2 := by
      nlinarith [hs2, hpos]
    rw [hcos]
    nlinarith [hlb]

/-! Theorems for the claims. -/

/-- C7: a body with orbital radius 0 returns its configured fixed position
regardless of the current angle and of the active frame, while the stored
angle still advances by the orbit speed. -/
theorem radius_zero_returns_fixed_position (angle orbitSpeed : ℝ)
    (isHeliocentric : Bool) (name : String) (position prev : Vec3) :
    Planet.useFrame angle orbitSpeed 0 isHeliocentric name position prev
      = (angle + orbitSpeed, position) := by
  simp [Planet.useFrame]

/-- C6: for the exempt bodies Earth and Moon the evaluator output (new
angle and position) is the same under both reference frames for the same
angle, speed and radius: two-run noninterference with respect to the frame. -/
theorem exempt_bodies_frame_invariant (angle orbitSpeed orbitRadius : ℝ)
    (f1 f2 : Bool) (name : String) (position prev : Vec3)
    (hname : name = "Earth" ∨ name = "Moon") :
    Planet.useFrame angle orbitSpeed orbitRadius f1 name position prev
      = Planet.useFrame angle orbitSpeed orbitRadius f2 name position prev := by
  unfold Planet.useFrame
  rcases hname with h | h <;> subst h <;> simp

/-- Witness for C6 at Earth, radius 10, the two frames. -/
theorem exempt_bodies_frame_invariant_witness :
    ("Earth" = "Earth" ∨ "Earth" = "Moon") ∧
    Planet.useFrame 0.3 0.01 10 true "Earth" ⟨0, 0, 0⟩ ⟨10, 0, 0⟩
      = Planet.useFrame 0.3 0.01 10 false "Earth" ⟨0, 0, 0⟩ ⟨10, 0, 0⟩ :=
  ⟨Or.inl rfl,
    exempt_bodies_frame_invariant 0.3 0.01 10 true false "Earth"
      ⟨0, 0, 0⟩ ⟨10, 0, 0⟩ (Or.inl rfl)⟩

/-- C8: the toggle handler replaces the frame value with its negation and
leaves every stored per-body angle unchanged. -/
theorem toggle_preserves_angles (s : SolarSystemState) :
    (toggleClick s).isHeliocentric = !s.isHeliocentric
      ∧ (toggleClick s).planetAngles = s.planetAngles := by
  exact ⟨rfl, rfl⟩

/-- C9 counterexample: at an unknown (falsy) runtime frame value the
evaluator does not reject; it returns the geocentric-branch result. -/
theorem unknown_frame_not_rejected :
    exceptIsOk (Planet.useFrameRuntime 0 0 10 (JSFrameValue.unknownVal false)
        "Mars" ⟨0, 0, 0⟩ ⟨10, 0, 0⟩) = true
    ∧ Planet.useFrameRuntime 0 0 10 (JSFrameValue.unknownVal false)
        "Mars" ⟨0, 0, 0⟩ ⟨10, 0, 0⟩
      = Except.ok (Planet.useFrame 0 0 10 false "Mars" ⟨0, 0, 0⟩ ⟨10, 0, 0⟩) :=
  ⟨rfl, rfl⟩

/-- C9 amended: the evaluator never fails fast on any frame value; every
runtime value is silently coerced by truthiness, so an unknown falsy value
behaves exactly like the geocentric frame. -/
theorem unknown_frame_silently_defaults (angle orbitSpeed orbitRadius : ℝ)
    (frame : JSFrameValue) (b : Bool) (name : String) (position prev : Vec3) :
    exceptIsOk (Planet.useFrameRuntime angle orbitSpeed orbitRadius frame
        name position prev) = true
    ∧ Planet.useFrameRuntime angle orbitSpeed orbitRadius
        (JSFrameValue.unknownVal b) name position prev
      = Planet.useFrameRuntime angle orbitSpeed orbitRadius
        (if b then JSFrameValue.helio else JSFrameValue.geo) name position prev := by
  refine ⟨rfl, ?_⟩
  cases b <;> rfl

/-- C5: in the heliocentric frame a body with positive orbital radius is
returned at exact distance orbitRadius from the frame origin, with y = 0. -/
theorem heliocentric_distance_exact (angle orbitSpeed orbitRadius : ℝ)
    (name : String) (position prev : Vec3)
    (hr : 0 < orbitRadius) (hy : prev.y = 0) :
    Vec3.norm (Planet.useFrame angle orbitSpeed orbitRadius true name position prev).2
      = orbitRadius
    ∧ (Planet.useFrame angle orbitSpeed orbitRadius true name position prev).2.y = 0 := by
  rw [useFrame_heliocentric_eval angle orbitSpeed orbitRadius name position prev hr, hy]
  refine ⟨?_, rfl⟩
  rw [Vec3.norm_mk]
  have hsq : (Real.cos (angle + orbitSpeed) * orbitRadius) ^ 2 + (0:ℝ) ^ 2
      + (Real.sin (angle + orbitSpeed) * orbitRadius) ^ 2 = orbitRadius ^ 2 := by
    have h := Real.sin_sq_add_cos_sq (angle + orbitSpeed)
    linear_combination orbitRadius ^ 2 * h
  rw [hsq, Real.sqrt_sq hr.le]

/-- Witness for C5 at radius 10, angle 0.3, speed 0.01. -/
theorem heliocentric_distance_exact_witness :
    (0 < (10:ℝ) ∧ (⟨10, 0, 0⟩ : Vec3).y = 0)
    ∧ Vec3.norm (Planet.useFrame 0.3 0.01 10 true "Venus" ⟨0, 0, 0⟩ ⟨10, 0, 0⟩).2 = 10
    ∧ (Planet.useFrame 0.3 0.01 10 true "Venus" ⟨0, 0, 0⟩ ⟨10, 0, 0⟩).2.y = 0 :=
  ⟨⟨by norm_num, rfl⟩,
    heliocentric_distance_exact 0.3 0.01 10 "Venus" ⟨0, 0, 0⟩ ⟨10, 0, 0⟩
      (by norm_num) rfl⟩

/-- C1 counterexample: at angle 0, speed 0, radius 10, geocentric frame,
body Mars, the evaluator yields x = 10.5 (epicycle radius 0.05·r) while
the claimed formula with epicycle radius 0.1·r would give x = 11. -/
theorem geocentric_epicycle_fraction_refuted :
    ¬ ((Planet.useFrame 0 0 10 false "Mars" ⟨0, 0, 0⟩ ⟨10, 0, 0⟩).2.x
        = 10 * Real.cos (0 + 0) + 0.1 * 10 * Real.cos (-(1.5 * (0 + 0)))) := by
  have hx : (Planet.useFrame 0 0 10 false "Mars" ⟨0, 0, 0⟩ ⟨10, 0, 0⟩).2.x = 10.5 := by
    norm_num [Planet.useFrame]
    rw [if_neg (show ¬(("Mars" : String) = "Earth" ∨ ("Mars" : String) = "Moon") by simp)]
  rw [hx]
  norm_num

/-- C1 amended: for a geocentric non-exempt orbiting body the evaluator
returns deferent plus epicycle with epicycle radius 0.05·orbitRadius (not
0.1·orbitRadius) and epicycle angle -1.5·newAngle, where newAngle =
angle + orbitSpeed. -/
theorem geocentric_epicycle_formula (angle orbitSpeed orbitRadius : ℝ)
    (name : String) (position prev : Vec3) (hr : 0 < orbitRadius)
    (h1 : name ≠ "Earth") (h2 : name ≠ "Moon") (hy : prev.y = 0) :
    Planet.useFrame angle orbitSpeed orbitRadius false name position prev
      = (angle + orbitSpeed,
         ⟨Real.cos (angle + orbitSpeed) * orbitRadius
            + Real.cos (-(angle + orbitSpeed) * 1.5) * (orbitRadius * 0.05),
          0,
          Real.sin (angle + orbitSpeed) * orbitRadius
            + Real.sin (-(angle + orbitSpeed) * 1.5) * (orbitRadius * 0.05)⟩) := by
  rw [useFrame_geocentric_eval angle orbitSpeed orbitRadius name position prev hr h1 h2, hy]

/-- Witness for C1 amended at Mars, radius 10, angle 0.2, speed 0.01. -/
theorem geocentric_epicycle_formula_witness :
    (0 < (10:ℝ) ∧ "Mars" ≠ "Earth" ∧ "Mars" ≠ "Moon" ∧ (⟨10, 0, 0⟩ : Vec3).y = 0)
    ∧ Planet.useFrame 0.2 0.01 10 false "Mars" ⟨0, 0, 0⟩ ⟨10, 0, 0⟩
      = (0.2 + 0.01,
         ⟨Real.cos (0.2 + 0.01) * 10
            + Real.cos (-(0.2 + 0.01) * 1.5) * (10 * 0.05),
          0,
          Real.sin (0.2 + 0.01) * 10
            + Real.sin (-(0.2 + 0.01) * 1.5) * (10 * 0.05)⟩) :=
  ⟨⟨by norm_num, by simp, by simp, rfl⟩,
    geocentric_epicycle_formula 0.2 0.01 10 "Mars" ⟨0, 0, 0⟩ ⟨10, 0, 0⟩
      (by norm_num) (by simp) (by simp) rfl⟩

/-- C3: the ring curve with amplitude fraction 0.1 and speed multiplier 2
is closed, getPoint(0) = getPoint(1) for every radius; at radius 52 both
endpoints equal (57.2, 0, 0); and the last of the 100 uniform samples
(t = 99/100) is exactly one segment-step away from the t = 0 point, since
the wrap segment to t = 1 ends at the same point. -/
theorem retrograde_curve_closed (r : ℝ) :
    RetrogradeCurve.getPoint ⟨r, 0.1, 2⟩ 0 = RetrogradeCurve.getPoint ⟨r, 0.1, 2⟩ 1
    ∧ RetrogradeCurve.getPoint ⟨52, 0.1, 2⟩ 0 = ⟨57.2, 0, 0⟩
    ∧ Vec3.distTo (RetrogradeCurve.getPoint ⟨r, 0.1, 2⟩ (99 / 100))
          (RetrogradeCurve.getPoint ⟨r, 0.1, 2⟩ 0)
      = Vec3.distTo (RetrogradeCurve.getPoint ⟨r, 0.1, 2⟩ (99 / 100))
          (RetrogradeCurve.getPoint ⟨r, 0.1, 2⟩ 1) := by
  have e0 : ∀ s : ℝ, RetrogradeCurve.getPoint ⟨s, 0.1, 2⟩ 0 = ⟨s + s * 0.1, 0, 0⟩ := by
    intro s
    rw [getPoint_eval, show (0:ℝ) * Real.pi * 2 = 0 by ring, mul_zero,
      Real.cos_zero, Real.sin_zero]
    simp only [Vec3.mk.injEq]
    norm_num
  have e1 : ∀ s : ℝ, RetrogradeCurve.getPoint ⟨s, 0.1, 2⟩ 1 = ⟨s + s * 0.1, 0, 0⟩ := by
    intro s
    rw [getPoint_eval, show (1:ℝ) * Real.pi * 2 = 2 * Real.pi by ring,
      show -(2:ℝ) * (2 * Real.pi) = -(2 * Real.pi + 2 * Real.pi) by ring,
      Real.cos_neg, Real.sin_neg, Real.cos_add_two_pi, Real.sin_add_two_pi,
      Real.cos_two_pi, Real.sin_two_pi]
    simp only [Vec3.mk.injEq]
    norm_num
  refine ⟨(e0 r).trans (e1 r).symm, ?_, ?_⟩
  · rw [e0 52]
    simp only [Vec3.mk.injEq]
    norm_num
  · rw [e0 r, e1 r]

/-- C2 counterexample: at radius 10, speed 0.029, heliocentric frame,
starting angle 0, the x coordinate after one tick is 10·cos(0.029) which
is about 9.9958, not within 0.001 of the claimed 9.9996. -/
theorem scenario_tick_position_refuted :
    ¬ (|(Planet.useFrame 0 0.029 10 true "Earth" ⟨0, 0, 0⟩ ⟨10, 0, 0⟩).2.x - 9.9996|
        ≤ 0.001) := by
  have hx : (Planet.useFrame 0 0.029 10 true "Earth" ⟨0, 0, 0⟩ ⟨10, 0, 0⟩).2.x
      = Real.cos 0.029 * 10 := by
    rw [useFrame_heliocentric_eval 0 0.029 10 "Earth" ⟨0, 0, 0⟩ ⟨10, 0, 0⟩ (by norm_num)]
    norm_num
  intro h
  rw [hx] at h
  obtain ⟨h1, h2⟩ := abs_le.mp h
  have hub := cos_029_bounds.2
  linarith

/-- C2 amended: at radius 10, speed 0.029, heliocentric frame, starting
angle 0, one tick yields new angle 0.029 and position exactly
(10·cos(0.029), 0, 10·sin(0.029)), approximately (9.9958, 0, 0.2899). -/
theorem scenario_heliocentric_tick (name : String) (position prev : Vec3)
    (hy : prev.y = 0) :
    (Planet.useFrame 0 0.029 10 true name position prev).1 = 0.029
    ∧ (Planet.useFrame 0 0.029 10 true name position prev).2.x = Real.cos 0.029 * 10
    ∧ (Planet.useFrame 0 0.029 10 true name position prev).2.y = 0
    ∧ (Planet.useFrame 0 0.029 10 true name position prev).2.z = Real.sin 0.029 * 10
    ∧ |(Planet.useFrame 0 0.029 10 true name position prev).2.x - 9.9958| ≤ 0.001
    ∧ |(Planet.useFrame 0 0.029 10 true name position prev).2.z - 0.2899| ≤ 0.001 := by
  have hbr : Planet.useFrame 0 0.029 10 true name position prev
      = (0.029, ⟨Real.cos 0.029 * 10, 0, Real.sin 0.029 * 10⟩) := by
    rw [useFrame_heliocentric_eval 0 0.029 10 name position prev (by norm_num), hy]
    norm_num
  rw [hbr]
  have hc1 := cos_029_bounds.1
  have hc2 := cos_029_bounds.2
  have hs1 : Real.sin 0.029 < 0.029 := Real.sin_lt (by norm_num)
  have hs2 : (0.029:ℝ) - 0.029 ^ 3 / 4 < Real.sin 0.029 :=
    Real.sin_gt_sub_cube (by norm_num) (by norm_num)
  refine ⟨rfl, rfl, rfl, rfl, ?_, ?_⟩
  · rw [abs_le]
    constructor <;> [linarith; linarith]
  · rw [abs_le]
    constructor <;> [nlinarith [hs2]; nlinarith [hs1]]

/-- Witness for C2 amended at the body Earth. -/
theorem scenario_heliocentric_tick_witness :
    (⟨10, 0, 0⟩ : Vec3).y = 0
    ∧ ((Planet.useFrame 0 0.029 10 true "Earth" ⟨0, 0, 0⟩ ⟨10, 0, 0⟩).1 = 0.029
    ∧ (Planet.useFrame 0 0.029 10 true "Earth" ⟨0, 0, 0⟩ ⟨10, 0, 0⟩).2.x
        = Real.cos 0.029 * 10
    ∧ (Planet.useFrame 0 0.029 10 true "Earth" ⟨0, 0, 0⟩ ⟨10, 0, 0⟩).2.y = 0
    ∧ (Planet.useFrame 0 0.029 10 true "Earth" ⟨0, 0, 0⟩ ⟨10, 0, 0⟩).2.z
        = Real.sin 0.029 * 10
    ∧ |(Planet.useFrame 0 0.029 10 true "Earth" ⟨0, 0, 0⟩ ⟨10, 0, 0⟩).2.x - 9.9958|
        ≤ 0.001
    ∧ |(Planet.useFrame 0 0.029 10 true "Earth" ⟨0, 0, 0⟩ ⟨10, 0, 0⟩).2.z - 0.2899|
        ≤ 0.001) :=
  ⟨rfl, scenario_heliocentric_tick "Earth" ⟨0, 0, 0⟩ ⟨10, 0, 0⟩ rfl⟩

/-- C4: every deferent-plus-epicycle position, for the ring curve at any
parameter t and for the live geocentric body at any angle, lies at a
distance from the origin within [r·(1-0.1), r·(1+0.1)]; the distance
equals exactly r only at the specific phase alignments where the phase
cosine equals minus half the amplitude fraction (0.1 for the ring, 0.05
for the live body). -/
theorem deferent_epicycle_distance_envelope (r t angle orbitSpeed : ℝ)
    (name : String) (position prev : Vec3) (hr : 0 < r)
    (h1 : name ≠ "Earth") (h2 : name ≠ "Moon") (hy : prev.y = 0) :
    (r * (1 - 0.1) ≤ Vec3.norm (RetrogradeCurve.getPoint ⟨r, 0.1, 2⟩ t)
      ∧ Vec3.norm (RetrogradeCurve.getPoint ⟨r, 0.1, 2⟩ t) ≤ r * (1 + 0.1))
    ∧ (Vec3.norm (RetrogradeCurve.getPoint ⟨r, 0.1, 2⟩ t) = r
        ↔ Real.cos ((1 + 2) * (t * Real.pi * 2)) = -(0.1 / 2))
    ∧ (r * (1 - 0.1)
        ≤ Vec3.norm (Planet.useFrame angle orbitSpeed r false name position prev).2
      ∧ Vec3.norm (Planet.useFrame angle orbitSpeed r false name position prev).2
        ≤ r * (1 + 0.1))
    ∧ (Vec3.norm (Planet.useFrame angle orbitSpeed r false name position prev).2 = r
        ↔ Real.cos ((1 + 1.5) * (angle + orbitSpeed)) = -(0.05 / 2)) := by
  have hring : RetrogradeCurve.getPoint ⟨r, 0.1, 2⟩ t
      = ⟨Real.cos (t * Real.pi * 2) * r
           + Real.cos (-(2 * (t * Real.pi * 2))) * (r * 0.1), 0,
         Real.sin (t * Real.pi * 2) * r
           + Real.sin (-(2 * (t * Real.pi * 2))) * (r * 0.1)⟩ := by
    rw [getPoint_eval, neg_mul]
  have hlive : (Planet.useFrame angle orbitSpeed r false name position prev).2
      = ⟨Real.cos (angle + orbitSpeed) * r
           + Real.cos (-(1.5 * (angle + orbitSpeed))) * (r * 0.05), 0,
         Real.sin (angle + orbitSpeed) * r
           + Real.sin (-(1.5 * (angle + orbitSpeed))) * (r * 0.05)⟩ := by
    rw [useFrame_geocentric_eval angle orbitSpeed r name position prev hr h1 h2, hy,
      show -(angle + orbitSpeed) * 1.5 = -(1.5 * (angle + orbitSpeed)) by ring]
  rw [hring, hlive]
  obtain ⟨hrb1, hrb2⟩ :=
    epi_norm_bounds r 0.1 2 (t * Real.pi * 2) hr.le (by norm_num) (by norm_num)
  obtain ⟨hlb1, hlb2⟩ :=
    epi_norm_bounds r 0.05 1.5 (angle + orbitSpeed) hr.le (by norm_num) (by norm_num)
  refine ⟨⟨hrb1, hrb2⟩,
    epi_norm_eq_iff r 0.1 2 (t * Real.pi * 2) hr (by norm_num) (by norm_num),
    ⟨by nlinarith [hlb1, hr.le], by nlinarith [hlb2, hr.le]⟩,
    epi_norm_eq_iff r 0.05 1.5 (angle + orbitSpeed) hr (by norm_num) (by norm_num)⟩

/-- Witness for C4 at radius 52, t = 0, angle 0, speed 0, body Mars. -/
theorem deferent_epicycle_distance_envelope_witness :
    (0 < (52:ℝ) ∧ "Mars" ≠ "Earth" ∧ "Mars" ≠ "Moon" ∧ (⟨52, 0, 0⟩ : Vec3).y = 0)
    ∧ ((52 * (1 - 0.1) ≤ Vec3.norm (RetrogradeCurve.getPoint ⟨52, 0.1, 2⟩ 0)
      ∧ Vec3.norm (RetrogradeCurve.getPoint ⟨52, 0.1, 2⟩ 0) ≤ 52 * (1 + 0.1))
    ∧ (Vec3.norm (RetrogradeCurve.getPoint ⟨52, 0.1, 2⟩ 0) = 52
        ↔ Real.cos ((1 + 2) * (0 * Real.pi * 2)) = -(0.1 / 2))
    ∧ (52 * (1 - 0.1)
        ≤ Vec3.norm (Planet.useFrame 0 0 52 false "Mars" ⟨0, 0, 0⟩ ⟨52, 0, 0⟩).2
      ∧ Vec3.norm (Planet.useFrame 0 0 52 false "Mars" ⟨0, 0, 0⟩ ⟨52, 0, 0⟩).2
        ≤ 52 * (1 + 0.1))
    ∧ (Vec3.norm (Planet.useFrame 0 0 52 false "Mars" ⟨0, 0, 0⟩ ⟨52, 0, 0⟩).2 = 52
        ↔ Real.cos ((1 + 1.5) * (0 + 0)) = -(0.05 / 2))) :=
  ⟨⟨by norm_num, by simp, by simp, rfl⟩,
    deferent_epicycle_distance_envelope 52 0 0 0 "Mars" ⟨0, 0, 0⟩ ⟨52, 0, 0⟩
      (by norm_num) (by simp) (by simp) rfl⟩

/-- C10: the geocentric Sun (orbit radius 30, name Sun, hence non-exempt)
is moved by the deferent-plus-epicycle formula, so at every angle its
distance from the Earth-centred origin lies in [28.5, 31.5]; in particular
it never sits at its configured fixed position, the origin. -/
theorem sun_geocentric_orbits_in_band (angle : ℝ) (prev : Vec3) (hy : prev.y = 0) :
    28.5 ≤ Vec3.norm (Planet.useFrame angle sunGeocentricOrbitSpeed
        sunGeocentricOrbitRadius false sunName sunFixedPosition prev).2
    ∧ Vec3.norm (Planet.useFrame angle sunGeocentricOrbitSpeed
        sunGeocentricOrbitRadius false sunName sunFixedPosition prev).2 ≤ 31.5
    ∧ (Planet.useFrame angle sunGeocentricOrbitSpeed
        sunGeocentricOrbitRadius false sunName sunFixedPosition prev).2
      ≠ sunFixedPosition := by
  have hlive : (Planet.useFrame angle sunGeocentricOrbitSpeed
        sunGeocentricOrbitRadius false sunName sunFixedPosition prev).2
      = ⟨Real.cos (angle + sunGeocentricOrbitSpeed) * 30
           + Real.cos (-(1.5 * (angle + sunGeocentricOrbitSpeed))) * (30 * 0.05), 0,
         Real.sin (angle + sunGeocentricOrbitSpeed) * 30
           + Real.sin (-(1.5 * (angle + sunGeocentricOrbitSpeed))) * (30 * 0.05)⟩ := by
    rw [useFrame_geocentric_eval angle sunGeocentricOrbitSpeed sunGeocentricOrbitRadius
        sunName sunFixedPosition prev
        (by norm_num [sunGeocentricOrbitRadius])
        (by simp [sunName]) (by simp [sunName]), hy]
    simp only [sunGeocentricOrbitRadius]
    rw [show -(angle + sunGeocentricOrbitSpeed) * 1.5
        = -(1.5 * (angle + sunGeocentricOrbitSpeed)) by ring]
  rw [hlive]
  obtain ⟨hb1, hb2⟩ :=
    epi_norm_bounds 30 0.05 1.5 (angle + sunGeocentricOrbitSpeed)
      (by norm_num) (by norm_num) (by norm_num)
  refine ⟨by linarith, by linarith, ?_⟩
  intro heq
  have h0 : Vec3.norm sunFixedPosition = 0 := by
    rw [show sunFixedPosition = (⟨0, 0, 0⟩ : Vec3) from rfl, Vec3.norm_mk]
    rw [show (0:ℝ) ^ 2 + 0 ^ 2 + 0 ^ 2 = 0 by norm_num, Real.sqrt_zero]
  rw [heq, h0] at hb1
  linarith

/-- Witness for C10 at angle 0. -/
theorem sun_geocentric_orbits_in_band_witness :
    (⟨30, 0, 0⟩ : Vec3).y = 0
    ∧ (28.5 ≤ Vec3.norm (Planet.useFrame 0 sunGeocentricOrbitSpeed
        sunGeocentricOrbitRadius false sunName sunFixedPosition ⟨30, 0, 0⟩).2
    ∧ Vec3.norm (Planet.useFrame 0 sunGeocentricOrbitSpeed
        sunGeocentricOrbitRadius false sunName sunFixedPosition ⟨30, 0, 0⟩).2 ≤ 31.5
    ∧ (Planet.useFrame 0 sunGeocentricOrbitSpeed
        sunGeocentricOrbitRadius false sunName sunFixedPosition ⟨30, 0, 0⟩).2
      ≠ sunFixedPosition) :=
  ⟨rfl, sun_geocentric_orbits_in_band 0 ⟨30, 0, 0⟩ rfl⟩

end OrbMotion
